import Mathlib

/-
Shallow embedding of the lead classification, filtering, ranking,
pagination and query generation engine of src/app.py
(CareRewards_CRM).  Pandas dataframes are modelled as lists of records;
possibly missing cells (NaN) are modelled as Option values; the
multi-column stable sort performed by pandas sort_values (which uses a
stable lexicographic sort for multiple keys) is modelled by
List.mergeSort with the corresponding lax comparison.
-/

/-- Priority tier enumeration.  The code stores the labels
"Tier 1" / "Tier 2" / "Tier 3" in the column Priority_Tier; the closed
set of values is modelled as an inductive type. -/
inductive Tier where
  | tier1 : Tier
  | tier2 : Tier
  | tier3 : Tier
deriving DecidableEq, Repr

/-- Static configuration from src/app.py line 41. -/
def TIER_1_STATES : List String := ["MA", "NY", "CA"]

/-- Static configuration from src/app.py line 42. -/
def TIER_2_STATES : List String := ["IL", "TX", "PA", "FL", "NJ", "OH"]

/-- Tier classification lambda applied at load time, src/app.py lines
51-54: Tier 1 if the state is in TIER_1_STATES, else Tier 2 if in
TIER_2_STATES, else Tier 3.  A missing State cell (NaN) fails both
membership tests in Python and therefore falls to Tier 3; it is
modelled by the none case. -/
def classify (x : Option String) : Tier :=
  match x with
  | some s =>
      if TIER_1_STATES.contains s then Tier.tier1
      else if TIER_2_STATES.contains s then Tier.tier2
      else Tier.tier3
  | none => Tier.tier3

/-- Label stored in the Priority_Tier column for each tier value. -/
def tierLabel : Tier → String
  | Tier.tier1 => "Tier 1"
  | Tier.tier2 => "Tier 2"
  | Tier.tier3 => "Tier 3"

/-- One CRM record, with the columns used by the engine
(src/app.py: Employer_Name, EIN, State, Participants, Market_Segment,
Plan_Name, plus the derived Priority_Tier column).  Employer_Name,
State and Plan_Name may be missing (NaN), hence Option. -/
structure Lead where
  employer_name : Option String
  ein : Nat
  state : Option String
  participants : Nat
  market_segment : String
  plan_name : Option String
  priority_tier : Tier
deriving DecidableEq, Repr

/-- C2: tier classification is total and follows the rule: Tier 1 states
map to tier1, remaining Tier 2 states map to tier2, everything else
(including a missing state) maps to tier3 with no error, and the two
configured state sets are disjoint. -/
theorem classify_total_and_correct :
    (∀ st : String, st ∈ TIER_1_STATES →
        classify (some st) = Tier.tier1)
    ∧ (∀ st : String, st ∉ TIER_1_STATES →
        st ∈ TIER_2_STATES → classify (some st) = Tier.tier2)
    ∧ (∀ st : String, st ∉ TIER_1_STATES →
        st ∉ TIER_2_STATES → classify (some st) = Tier.tier3)
    ∧ classify none = Tier.tier3
    ∧ (∀ st : String, st ∈ TIER_1_STATES → st ∉ TIER_2_STATES) := by
  refine ⟨?_, ?_, ?_, rfl, ?_⟩
  · intro st h1
    simp [classify, h1]
  · intro st h1 h2
    simp [classify, h1, h2]
  · intro st h1 h2
    simp [classify, h1, h2]
  · intro st h1
    fin_cases h1 <;> decide

/-- Witness for C2 at concrete states: MA is Tier 1, TX is Tier 2, WY is
Tier 3, and a missing state is Tier 3. -/
theorem classify_total_and_correct_witness :
    classify (some "MA") = Tier.tier1
    ∧ classify (some "TX") = Tier.tier2
    ∧ classify (some "WY") = Tier.tier3
    ∧ classify none = Tier.tier3 :=
  ⟨classify_total_and_correct.1 "MA" (by decide),
   classify_total_and_correct.2.1 "TX" (by decide) (by decide),
   classify_total_and_correct.2.2.1 "WY" (by decide) (by decide),
   classify_total_and_correct.2.2.2.1⟩

/-- Numeric rank of a tier, from the dict tier_order at src/app.py
line 133: Tier 1 maps to 0, Tier 2 to 1, Tier 3 to 2. -/
def tier_order : Tier → Nat
  | Tier.tier1 => 0
  | Tier.tier2 => 1
  | Tier.tier3 => 2

/-- Lax comparison realised by sort_values at src/app.py line 136:
ascending Tier_Rank first, then descending Participants. -/
def leadLE (a b : Lead) : Bool :=
  decide (tier_order a.priority_tier < tier_order b.priority_tier)
  || (decide (tier_order a.priority_tier = tier_order b.priority_tier)
      && decide (b.participants ≤ a.participants))

theorem leadLE_trans : ∀ (a b c : Lead),
    leadLE a b = true → leadLE b c = true → leadLE a c = true := by
  intro a b c hab hbc
  simp only [leadLE, Bool.or_eq_true, Bool.and_eq_true, decide_eq_true_eq]
    at hab hbc ⊢
  omega

theorem leadLE_total : ∀ (a b : Lead), leadLE a b || leadLE b a := by
  intro a b
  simp only [leadLE, Bool.or_eq_true, Bool.and_eq_true, decide_eq_true_eq,
    Bool.or_self_left]
  omega

/-- Sorting step of get_top_priority_leads, src/app.py lines 133-137:
a stable sort by ascending tier rank and descending participants.
For several sort keys pandas sort_values performs a stable
lexicographic sort, modelled here by List.mergeSort with leadLE. -/
def rank (df : List Lead) : List Lead := df.mergeSort leadLE

/-- Function get_top_priority_leads, src/app.py lines 130-138: the
stable sort followed by head n. -/
def get_top_priority_leads (df : List Lead) (n : Nat) : List Lead :=
  (rank df).take n

theorem rank_perm (df : List Lead) : List.Perm (rank df) df :=
  List.mergeSort_perm df leadLE

theorem rank_sorted (df : List Lead) :
    (rank df).Pairwise fun a b => leadLE a b = true :=
  List.sorted_mergeSort leadLE_trans leadLE_total df

theorem filter_rank_eq_of_key (l : List Lead) (p : Lead → Bool)
    (hkey : ∀ x y, p x = true → p y = true → leadLE x y = true) :
    (rank l).filter p = l.filter p := by
  have hmem : ∀ x ∈ l.filter p, p x = true :=
    fun x hx => (List.mem_filter.mp hx).2
  have hpw : (l.filter p).Pairwise fun a b => leadLE a b = true :=
    List.pairwise_of_forall_mem_list
      fun a ha b hb => hkey a b (hmem a ha) (hmem b hb)
  have hsub : List.Sublist (l.filter p) (rank l) :=
    List.sublist_mergeSort leadLE_trans leadLE_total hpw (List.filter_sublist l)
  have hsub2 : List.Sublist ((l.filter p).filter p) ((rank l).filter p) := hsub.filter p
  have hself : (l.filter p).filter p = l.filter p := by
    simp [List.filter_filter]
  rw [hself] at hsub2
  have hperm : List.Perm ((rank l).filter p) (l.filter p) := (rank_perm l).filter p
  exact (hsub2.eq_of_length hperm.length_eq.symm).symm

/-- C1: the ranking is stable.  For any tier t and participant count c,
the subsequence of leads whose keys are exactly (t, c) is unchanged by
rank, so every pair of leads with equal tier and equal participants
keeps its relative input order, for any input ordering. -/
theorem rank_stable_on_equal_keys (l : List Lead) (t : Tier) (c : Nat) :
    (rank l).filter
        (fun x => decide (x.priority_tier = t) && decide (x.participants = c))
      = l.filter
        (fun x => decide (x.priority_tier = t) && decide (x.participants = c)) := by
  apply filter_rank_eq_of_key
  intro x y hx hy
  simp only [Bool.and_eq_true, decide_eq_true_eq] at hx hy
  simp [leadLE, hx.1, hx.2, hy.1, hy.2]

/-- C3: ranking order.  If a has a strictly smaller tier rank than b
(Tier 1 before Tier 2 before Tier 3), or the same tier and strictly
more participants, then every occurrence of a precedes every occurrence
of b in the output of rank, and both stay members of the output. -/
theorem rank_ordering (l : List Lead) (a b : Lead) (ha : a ∈ l) (hb : b ∈ l)
    (hkey : tier_order a.priority_tier < tier_order b.priority_tier
      ∨ (a.priority_tier = b.priority_tier ∧ b.participants < a.participants)) :
    a ∈ rank l ∧ b ∈ rank l ∧
      ∀ (i j : Nat) (hi : i < (rank l).length) (hj : j < (rank l).length),
        (rank l)[i] = a → (rank l)[j] = b → i < j := by
  have hto : a.priority_tier = b.priority_tier →
      tier_order a.priority_tier = tier_order b.priority_tier :=
    fun h => congrArg tier_order h
  have hnot : ¬ (leadLE b a = true) := by
    simp only [leadLE, Bool.or_eq_true, Bool.and_eq_true, decide_eq_true_eq]
    rcases hkey with h | ⟨h1, h2⟩
    · omega
    · have := hto h1
      omega
  refine ⟨List.mem_mergeSort.mpr ha, List.mem_mergeSort.mpr hb, ?_⟩
  intro i j hi hj hia hjb
  rcases Nat.lt_trichotomy i j with h | h | h
  · exact h
  · exfalso
    apply hnot
    subst h
    have hab : b = a := hjb.symm.trans hia
    rw [hab]
    simp [leadLE]
  · exfalso
    apply hnot
    have hp := (List.pairwise_iff_getElem.mp (rank_sorted l)) j i hj hi h
    rw [hia, hjb] at hp
    exact hp

/-- Witness for C3: in a concrete list, the Tier 1 lead with 6000
participants is a member of the ranked output. -/
theorem rank_ordering_witness :
    Lead.mk (some "A") 11 (some "MA") 6000 "Large (5K+)" none Tier.tier1
      ∈ rank [Lead.mk (some "D") 44 (some "NY") 100 "Mid" none Tier.tier1,
              Lead.mk (some "B") 22 (some "TX") 3000 "Mid" none Tier.tier2,
              Lead.mk (some "A") 11 (some "MA") 6000 "Large (5K+)" none Tier.tier1] :=
  (rank_ordering _
    (Lead.mk (some "A") 11 (some "MA") 6000 "Large (5K+)" none Tier.tier1)
    (Lead.mk (some "D") 44 (some "NY") 100 "Mid" none Tier.tier1)
    (by decide) (by decide) (Or.inr ⟨rfl, by decide⟩)).1

/-- C8: get_top_priority_leads equals rank truncated to the first n
elements, and when fewer than n leads exist the whole ranked list is
returned. -/
theorem get_top_priority_leads_spec (l : List Lead) (n : Nat) :
    get_top_priority_leads l n = (rank l).take n
    ∧ (l.length < n → get_top_priority_leads l n = rank l) := by
  refine ⟨rfl, ?_⟩
  intro h
  apply List.take_of_length_le
  have hlen : (rank l).length = l.length := by simp [rank]
  omega

/-- Witness for C8 at a three-element list and n = 5. -/
theorem get_top_priority_leads_spec_witness :
    get_top_priority_leads
        [Lead.mk (some "B") 22 (some "TX") 3000 "Mid" none Tier.tier2,
         Lead.mk (some "A") 11 (some "MA") 6000 "Large (5K+)" none Tier.tier1] 5
      = rank
        [Lead.mk (some "B") 22 (some "TX") 3000 "Mid" none Tier.tier2,
         Lead.mk (some "A") 11 (some "MA") 6000 "Large (5K+)" none Tier.tier1] :=
  (get_top_priority_leads_spec _ 5).2 (by decide)

/-- Decides whether the pattern matches at the head of the text. -/
def headMatch : List Char → List Char → Bool
  | [], _ => true
  | _ :: _, [] => false
  | a :: as, b :: bs => a == b && headMatch as bs

/-- Decides whether the pattern occurs contiguously inside the text,
modelling the plain substring reading of pandas str.contains. -/
def hasSub (pat : List Char) : List Char → Bool
  | [] => headMatch pat []
  | b :: bs => headMatch pat (b :: bs) || hasSub pat bs

theorem headMatch_self (p ys : List Char) : headMatch p (p ++ ys) = true := by
  induction p with
  | nil => rfl
  | cons a as ih => simp [headMatch, ih]

theorem hasSub_of_headMatch (p s : List Char) (h : headMatch p s = true) :
    hasSub p s = true := by
  cases s with
  | nil => simpa [hasSub] using h
  | cons b bs => simp [hasSub, h]

theorem hasSub_cons (p : List Char) (b : Char) (bs : List Char)
    (h : hasSub p bs = true) : hasSub p (b :: bs) = true := by
  simp [hasSub, h]

theorem hasSub_append (p xs s : List Char) (h : hasSub p s = true) :
    hasSub p (xs ++ s) = true := by
  induction xs with
  | nil => simpa
  | cons a as ih => exact hasSub_cons _ _ _ ih

theorem hasSub_self_append (p ys : List Char) : hasSub p (p ++ ys) = true :=
  hasSub_of_headMatch _ _ (headMatch_self p ys)

/-- Compilation error raised by the regular expression engine behind
pandas str.contains (Python re.error).  The constructors name the
failure modes of the modelled syntax subset. -/
inductive ReErr where
  | unbalancedParen : ReErr
  | unterminatedGroup : ReErr
  | nothingToRepeat : ReErr
  | multipleRepeat : ReErr
  | badEscape : ReErr
  | unsupported : Char → ReErr
deriving DecidableEq, Repr

/-- Abstract syntax of the modelled regular expression subset:
literals, the any-character dot, concatenation, alternation, grouping
and the star repeat (plus and question mark desugar to it). -/
inductive Regex where
  | nothing : Regex
  | emptyStr : Regex
  | charLit : Char → Regex
  | anyChar : Regex
  | seq : Regex → Regex → Regex
  | alt : Regex → Regex → Regex
  | star : Regex → Regex
deriving DecidableEq, Repr

/-- Whether the regular expression matches the empty string. -/
def nullable : Regex → Bool
  | Regex.nothing => false
  | Regex.emptyStr => true
  | Regex.charLit _ => false
  | Regex.anyChar => false
  | Regex.seq a b => nullable a && nullable b
  | Regex.alt a b => nullable a || nullable b
  | Regex.star _ => true

/-- Brzozowski derivative of the regular expression by one character. -/
def rderiv : Regex → Char → Regex
  | Regex.nothing, _ => Regex.nothing
  | Regex.emptyStr, _ => Regex.nothing
  | Regex.charLit c, d => if c == d then Regex.emptyStr else Regex.nothing
  | Regex.anyChar, _ => Regex.emptyStr
  | Regex.seq a b, d =>
      if nullable a then Regex.alt (Regex.seq (rderiv a d) b) (rderiv b d)
      else Regex.seq (rderiv a d) b
  | Regex.alt a b, d => Regex.alt (rderiv a d) (rderiv b d)
  | Regex.star a, d => Regex.seq (rderiv a d) (Regex.star a)

/-- Whether some leading piece of the text is matched by the regular
expression. -/
def matchPre : Regex → List Char → Bool
  | r, [] => nullable r
  | r, c :: cs => nullable r || matchPre (rderiv r c) cs

/-- Search semantics of re.search, hence of str.contains: the regular
expression matches somewhere inside the text. -/
def reSearch (r : Regex) : List Char → Bool
  | [] => nullable r
  | c :: cs => matchPre r (c :: cs) || reSearch r cs

/-- Sequence of the collected pieces of one branch, stored in reverse
order while parsing. -/
def seqOfRev (l : List Regex) : Regex :=
  l.reverse.foldl Regex.seq Regex.emptyStr

/-- Alternation of the collected branches, stored in reverse order
while parsing. -/
def altOfRev (l : List Regex) : Regex :=
  match l.reverse with
  | [] => Regex.nothing
  | h :: t => t.foldl Regex.alt h

/-- One-pass parser for the modelled subset of the Python regular
expression syntax: literal characters, dot, alternation bar, groups,
the postfix repeats star, plus and question mark, and backslash escapes
of punctuation.  Malformed input is rejected exactly as re.compile
raises: a bare closing parenthesis, an unterminated group, a repeat
with nothing before it, a stacked repeat, and a trailing backslash.
The remaining Python constructs (character classes, anchors, braces,
alphanumeric escape classes) are conservatively rejected as
unsupported.  Arguments: remaining input, pieces of the current branch
in reverse, completed branches in reverse, saved states of enclosing
groups, and a flag set right after a repeat. -/
def parseLoop : List Char → List Regex → List Regex →
    List (List Regex × List Regex) → Bool → Except ReErr Regex
  | [], seqAcc, alts, stack, _ =>
      match stack with
      | [] => Except.ok (altOfRev (seqOfRev seqAcc :: alts))
      | _ :: _ => Except.error ReErr.unterminatedGroup
  | c :: rest, seqAcc, alts, stack, jr =>
      if c == '\\' then
        match rest with
        | [] => Except.error ReErr.badEscape
        | d :: rest2 =>
            if d.isAlphanum then Except.error (ReErr.unsupported d)
            else parseLoop rest2 (Regex.charLit d :: seqAcc) alts stack false
      else if c == '.' then
        parseLoop rest (Regex.anyChar :: seqAcc) alts stack false
      else if c == '|' then
        parseLoop rest [] (seqOfRev seqAcc :: alts) stack false
      else if c == '(' then
        parseLoop rest [] [] ((seqAcc, alts) :: stack) false
      else if c == ')' then
        match stack with
        | [] => Except.error ReErr.unbalancedParen
        | (sq, al) :: stack2 =>
            parseLoop rest (altOfRev (seqOfRev seqAcc :: alts) :: sq) al stack2 false
      else if c == '*' then
        if jr then Except.error ReErr.multipleRepeat
        else match seqAcc with
          | [] => Except.error ReErr.nothingToRepeat
          | p :: ps => parseLoop rest (Regex.star p :: ps) alts stack true
      else if c == '+' then
        if jr then Except.error ReErr.multipleRepeat
        else match seqAcc with
          | [] => Except.error ReErr.nothingToRepeat
          | p :: ps => parseLoop rest (Regex.seq p (Regex.star p) :: ps) alts stack true
      else if c == '?' then
        if jr then Except.error ReErr.multipleRepeat
        else match seqAcc with
          | [] => Except.error ReErr.nothingToRepeat
          | p :: ps => parseLoop rest (Regex.alt p Regex.emptyStr :: ps) alts stack true
      else if c == '[' || c == ']' || c == '{' || c == '}' || c == '^' || c == '$' then
        Except.error (ReErr.unsupported c)
      else
        parseLoop rest (Regex.charLit c :: seqAcc) alts stack false

/-- Compilation of a pattern string, modelling re.compile as invoked by
the pandas str accessor before any row is examined. -/
def reParse (pat : String) : Except ReErr Regex :=
  parseLoop pat.data [] [] [] false

/-- Sidebar filter request, src/app.py lines 149-222: selected states,
selected tiers, the participant slider range, selected market segments
and the two search boxes.  An empty list or empty search string imposes
no constraint, exactly as the Python truthiness checks skip those
stages. -/
structure FilterRequest where
  selected_states : List String
  selected_tiers : List Tier
  participants_min : Nat
  participants_max : Nat
  selected_segments : List String
  search_employer : String
  search_ein : String
deriving DecidableEq, Repr

/-- Membership test of the State cell in the selected states,
src/app.py line 228.  A missing cell is never a member. -/
def stateIsin (states : List String) (x : Lead) : Bool :=
  match x.state with
  | some s => states.contains s
  | none => false

/-- Membership test of the Priority_Tier cell, src/app.py line 231. -/
def tierIsin (tiers : List Tier) (x : Lead) : Bool :=
  tiers.contains x.priority_tier

/-- Membership test of the Market_Segment cell, src/app.py line 239. -/
def segmentIsin (segs : List String) (x : Lead) : Bool :=
  segs.contains x.market_segment

/-- Case-insensitive employer name search, src/app.py lines 242-244:
str.contains with case False and na False applied to a compiled
pattern; the ignore-case flag is modelled by lowering both the pattern
(before compilation) and the text; a missing name never matches. -/
def employerContains (re : Regex) (x : Lead) : Bool :=
  match x.employer_name with
  | some nm => reSearch re nm.toLower.data
  | none => false

/-- EIN search, src/app.py lines 247-249: str.contains with a compiled
pattern on the decimal string form of the EIN. -/
def einContains (re : Regex) (x : Lead) : Bool :=
  reSearch re (toString x.ein).data

/-- Compilation of the employer search pattern: skipped when the search
box is empty (Python truthiness at line 241), otherwise re.compile of
the lowered pattern inside the str accessor at line 243, which runs
before any row is examined and raises re.error on a malformed
pattern. -/
def empPat (r : FilterRequest) : Except ReErr (Option Regex) :=
  if r.search_employer.isEmpty then Except.ok none
  else (reParse r.search_employer.toLower).map some

/-- Compilation of the EIN search pattern, line 248, same shape. -/
def einPat (r : FilterRequest) : Except ReErr (Option Regex) :=
  if r.search_ein.isEmpty then Except.ok none
  else (reParse r.search_ein).map some

/-- Filter pipeline of main, src/app.py lines 225-249: six stages
applied in sequence; membership stages are skipped when their request
field is empty (Python truthiness), the participants range stage is
always applied, and each search stage first compiles its pattern,
propagating re.error, then keeps the matching rows.  The employer
stage runs before the EIN stage, so its error takes precedence. -/
def applyFilters (r : FilterRequest) (df : List Lead) : Except ReErr (List Lead) :=
  let df1 := if r.selected_states.isEmpty then df
    else df.filter (stateIsin r.selected_states)
  let df2 := if r.selected_tiers.isEmpty then df1
    else df1.filter (tierIsin r.selected_tiers)
  let df3 := df2.filter fun x =>
    decide (r.participants_min ≤ x.participants)
      && decide (x.participants ≤ r.participants_max)
  let df4 := if r.selected_segments.isEmpty then df3
    else df3.filter (segmentIsin r.selected_segments)
  match empPat r with
  | Except.error e => Except.error e
  | Except.ok em =>
      let df5 := match em with
        | none => df4
        | some re => df4.filter (employerContains re)
      match einPat r with
      | Except.error e => Except.error e
      | Except.ok en =>
          Except.ok (match en with
            | none => df5
            | some re => df5.filter (einContains re))

/-- Conjunction of all six stage predicates given the compiled search
patterns, with a skipped stage represented by a vacuously true
disjunct. -/
def matchesRequest (r : FilterRequest) (em en : Option Regex) (x : Lead) : Bool :=
  (r.selected_states.isEmpty || stateIsin r.selected_states x)
  && (r.selected_tiers.isEmpty || tierIsin r.selected_tiers x)
  && (decide (r.participants_min ≤ x.participants)
      && decide (x.participants ≤ r.participants_max))
  && (r.selected_segments.isEmpty || segmentIsin r.selected_segments x)
  && (match em with
      | none => true
      | some re => employerContains re x)
  && (match en with
      | none => true
      | some re => einContains re x)

theorem filter_guard {α : Type} (c : Bool) (p : α → Bool) (l : List α) :
    (if c then l else l.filter p) = l.filter fun x => c || p x := by
  cases c
  · simp
  · simp [List.filter_eq_self]

theorem applyFilters_eq (r : FilterRequest) (l : List Lead)
    (em en : Option Regex)
    (hem : empPat r = Except.ok em) (hen : einPat r = Except.ok en) :
    applyFilters r l = Except.ok (l.filter (matchesRequest r em en)) := by
  simp only [applyFilters, hem, hen]
  rcases em with _ | re1 <;> rcases en with _ | re2 <;>
    · simp only [applyFilters, filter_guard]
      simp only [List.filter_filter]
      refine congrArg Except.ok (List.filter_congr ?_)
      intro a _
      simp only [matchesRequest]
      rw [Bool.eq_iff_iff]
      simp only [Bool.and_eq_true, Bool.or_eq_true]
      tauto

theorem applyFilters_error (r : FilterRequest) (l : List Lead) :
    (∀ e, empPat r = Except.error e → applyFilters r l = Except.error e)
    ∧ (∀ em e, empPat r = Except.ok em → einPat r = Except.error e →
        applyFilters r l = Except.error e) := by
  constructor
  · intro e he
    simp only [applyFilters, he]
  · intro em e hem hen
    simp only [applyFilters, hem, hen]

/-- C4: the filter pipeline is idempotent: applying it twice with the
same request equals applying it once, in the error monad of re.error:
a request whose pattern fails to compile propagates the same error both
times, and a succeeding request filters its own output to itself. -/
theorem applyFilters_idempotent (l : List Lead) (r : FilterRequest) :
    Except.bind (applyFilters r l) (applyFilters r) = applyFilters r l := by
  rcases hem : empPat r with e | em
  · rw [(applyFilters_error r l).1 e hem]
    rfl
  · rcases hen : einPat r with e | en
    · rw [(applyFilters_error r l).2 em e hem hen]
      rfl
    · rw [applyFilters_eq r l em en hem hen]
      show applyFilters r (l.filter (matchesRequest r em en)) = _
      rw [applyFilters_eq r _ em en hem hen]
      simp only [List.filter_filter, Bool.and_self]

/-- Counterexample to C7 as claimed: with the reversed range 5000 to
400 and the EIN search pattern consisting of a single opening
parenthesis, the pipeline raises re.error (unterminated group, as
re.compile does for that pattern) instead of returning an empty result
set, already on the empty lead list. -/
theorem reversed_range_counterexample :
    applyFilters (FilterRequest.mk [] [] 5000 400 [] "" "(") []
      = Except.error ReErr.unterminatedGroup := rfl

/-- C7 amended: a reversed participants range (min above max) makes the
pipeline return an empty result set rather than raising, provided the
search patterns of the request compile (in particular whenever the two
search boxes are empty); a malformed search pattern instead raises
re.error. -/
theorem reversed_range_filter_empty (l : List Lead) (r : FilterRequest)
    (h : r.participants_max < r.participants_min)
    (em en : Option Regex)
    (hem : empPat r = Except.ok em) (hen : einPat r = Except.ok en) :
    applyFilters r l = Except.ok [] := by
  rw [applyFilters_eq r l em en hem hen]
  refine congrArg Except.ok (List.filter_eq_nil_iff.mpr ?_)
  intro a _
  simp only [matchesRequest, Bool.and_eq_true, decide_eq_true_eq]
  intro hmat
  have h12 := hmat.1.1.1.2
  omega

/-- Witness for C7: a request with minimum 5000, maximum 400 and empty
search boxes empties a concrete one-lead list without error. -/
theorem reversed_range_filter_empty_witness :
    applyFilters (FilterRequest.mk [] [] 5000 400 [] "" "")
        [Lead.mk (some "A") 11 (some "MA") 6000 "Large (5K+)" none Tier.tier1]
      = Except.ok [] :=
  reversed_range_filter_empty _ _ (by decide) none none rfl rfl

/-- Page slice from src/app.py lines 308-313: start index
(page - 1) * page_size, end index start + page_size, taken with iloc,
which clips to the list bounds. -/
def paginate (l : List Lead) (page_size page : Nat) : List Lead :=
  (l.drop ((page - 1) * page_size)).take page_size

/-- Total page count from src/app.py line 304: the Python expression
(n_items - 1) // page_size + 1 with Python floor division, which on the
negative numerator produced by n_items = 0 rounds down, hence Int.fdiv
on integers. -/
def total_pages (n_items page_size : Nat) : Int :=
  ((n_items : Int) - 1).fdiv (page_size : Int) + 1

/-- Page count as a natural number, for indexing the pages. -/
def page_count (n_items page_size : Nat) : Nat :=
  (total_pages n_items page_size).toNat

theorem neg_one_fdiv (k : Nat) (hk : 0 < k) : (-1 : Int).fdiv (k : Int) = -1 := by
  obtain ⟨m, rfl⟩ : ∃ m, k = m + 1 := ⟨k - 1, by omega⟩
  have h1 : Int.fdiv (Int.negSucc 0) (Int.ofNat (m + 1))
      = Int.negSucc (0 / (m + 1)) := rfl
  have h2 : ((m + 1 : Nat) : Int) = Int.ofNat (m + 1) := rfl
  rw [show (-1 : Int) = Int.negSucc 0 from rfl, h2, h1, Nat.zero_div]

theorem total_pages_eq (n k : Nat) (hk : 0 < k) :
    total_pages n k = ((n + k - 1) / k : Nat) := by
  rcases n with _ | m
  · have hr : (0 + k - 1) / k = 0 := Nat.div_eq_of_lt (by omega)
    simp only [total_pages, Nat.cast_zero, zero_sub, hr]
    rw [neg_one_fdiv k hk]
    omega
  · have h1 : ((m + 1 : Nat) : Int) - 1 = ((m : Nat) : Int) := by push_cast; ring
    have h2 : m + 1 + k - 1 = m + k := by omega
    simp only [total_pages, h1, h2]
    rw [← Int.ofNat_fdiv, Nat.add_div_right m hk]
    push_cast
    ring

theorem page_count_eq (n k : Nat) (hk : 0 < k) :
    page_count n k = (n + k - 1) / k := by
  rw [page_count, total_pages_eq n k hk, Int.toNat_ofNat]

theorem le_page_count_mul (n k : Nat) (hk : 0 < k) :
    n ≤ page_count n k * k := by
  rw [page_count_eq n k hk]
  rcases Nat.eq_zero_or_pos n with h | h
  · subst h
    exact Nat.zero_le _
  · have h2 : n + k - 1 = (n - 1) + k := by omega
    rw [h2, Nat.add_div_right _ hk]
    have h4 : n - 1 < ((n - 1) / k + 1) * k :=
      (Nat.div_lt_iff_lt_mul hk).mp (Nat.lt_succ_self _)
    have h5 : n - 1 + 1 ≤ ((n - 1) / k + 1) * k := Nat.succ_le_of_lt h4
    have h6 : n - 1 + 1 = n := by omega
    rwa [h6] at h5

theorem pages_concat (l : List Lead) (k : Nat) (m : Nat) :
    (List.range m).flatMap (fun i => paginate l k (i + 1)) = l.take (m * k) := by
  induction m with
  | zero => simp
  | succ m ih =>
      rw [List.range_succ, List.flatMap_append, ih]
      have hp : (List.flatMap [m] fun i => paginate l k (i + 1))
          = (l.drop (m * k)).take k := by
        simp [paginate]
      rw [hp, Nat.succ_mul, List.take_add]

/-- C5: each page has length at most page_size, the concatenation of
pages 1 to page_count reconstructs the input exactly, and a page past
the available range is empty. -/
theorem paginate_spec (L : List Lead) (k p : Nat) (hk : 0 < k) (hp : 1 ≤ p) :
    (paginate L k p).length ≤ k
    ∧ (List.range (page_count L.length k)).flatMap (fun i => paginate L k (i + 1)) = L
    ∧ (page_count L.length k < p → paginate L k p = []) := by
  refine ⟨?_, ?_, ?_⟩
  · simp only [paginate, List.length_take]
    omega
  · rw [pages_concat L k (page_count L.length k)]
    exact List.take_of_length_le (le_page_count_mul L.length k hk)
  · intro h2
    have h3 : page_count L.length k ≤ p - 1 := by omega
    have h1 : L.length ≤ (p - 1) * k :=
      le_trans (le_page_count_mul L.length k hk) (Nat.mul_le_mul_right k h3)
    simp [paginate, List.drop_eq_nil_of_le h1]

/-- Witness for C5 on a concrete three-lead list with page size 2 and
page 2. -/
theorem paginate_spec_witness :
    (paginate
        [Lead.mk (some "A") 11 (some "MA") 6000 "Large (5K+)" none Tier.tier1,
         Lead.mk (some "B") 22 (some "TX") 3000 "Mid" none Tier.tier2,
         Lead.mk (some "C") 33 (some "WY") 9000 "Large (5K+)" none Tier.tier3] 2 2).length ≤ 2
    ∧ (List.range (page_count (3 : Nat) 2)).flatMap
        (fun i => paginate
          [Lead.mk (some "A") 11 (some "MA") 6000 "Large (5K+)" none Tier.tier1,
           Lead.mk (some "B") 22 (some "TX") 3000 "Mid" none Tier.tier2,
           Lead.mk (some "C") 33 (some "WY") 9000 "Large (5K+)" none Tier.tier3] 2 (i + 1))
      = [Lead.mk (some "A") 11 (some "MA") 6000 "Large (5K+)" none Tier.tier1,
         Lead.mk (some "B") 22 (some "TX") 3000 "Mid" none Tier.tier2,
         Lead.mk (some "C") 33 (some "WY") 9000 "Large (5K+)" none Tier.tier3]
    ∧ (page_count (3 : Nat) 2 < 2 → paginate
        [Lead.mk (some "A") 11 (some "MA") 6000 "Large (5K+)" none Tier.tier1,
         Lead.mk (some "B") 22 (some "TX") 3000 "Mid" none Tier.tier2,
         Lead.mk (some "C") 33 (some "WY") 9000 "Large (5K+)" none Tier.tier3] 2 2 = []) :=
  paginate_spec _ 2 2 (by decide) (by decide)

/-- C6: the page count expression of the code equals the ceiling of
n over k, and zero items yield zero pages rather than one empty page. -/
theorem total_pages_is_ceil (n k : Nat) (hk : 0 < k) :
    total_pages n k = ((n + k - 1) / k : Nat) ∧ total_pages 0 k = 0 := by
  constructor
  · exact total_pages_eq n k hk
  · rw [total_pages_eq 0 k hk]
    have h0 : (0 + k - 1) / k = 0 := Nat.div_eq_of_lt (by omega)
    rw [h0]
    rfl

/-- Witness for C6 at 123 items with page size 50. -/
theorem total_pages_is_ceil_witness :
    total_pages 123 50 = ((123 + 50 - 1) / 50 : Nat) ∧ total_pages 0 50 = 0 :=
  total_pages_is_ceil 123 50 (by decide)

/-- Rendering of a possibly missing cell inside a Python f-string; a
missing value (NaN) prints as nan. -/
def renderCell : Option String → String
  | some s => s
  | none => "nan"

/-- Query lambda from load_data, src/app.py lines 57-60, producing the
Perplexity_Query column from the row fields. -/
def generate_query (row : Lead) : String :=
  "Find the employee benefits decision-maker (HR Director, Benefits Manager, or CFO) for "
    ++ renderCell row.employer_name
    ++ " (EIN: "
    ++ toString row.ein
    ++ ") in "
    ++ renderCell row.state
    ++ ". Include their name, title, email, and phone if available."

/-- C9: the query generator is deterministic, two evaluations on equal
Lead values give identical strings, and the string embeds the employer
name, the decimal EIN, and the state of the lead. -/
theorem generate_query_deterministic_and_embedding (x y : Lead) (hxy : x = y) :
    generate_query x = generate_query y
    ∧ (∀ nm : String, x.employer_name = some nm →
        hasSub nm.data (generate_query x).data = true)
    ∧ hasSub (toString x.ein).data (generate_query x).data = true
    ∧ (∀ st : String, x.state = some st →
        hasSub st.data (generate_query x).data = true) := by
  refine ⟨congrArg generate_query hxy, ?_, ?_, ?_⟩
  · intro nm hnm
    simp only [generate_query, hnm, renderCell, String.data_append,
      List.append_assoc]
    exact hasSub_append _ _ _ (hasSub_self_append _ _)
  · simp only [generate_query, String.data_append, List.append_assoc]
    exact hasSub_append _ _ _ (hasSub_append _ _ _ (hasSub_append _ _ _
      (hasSub_self_append _ _)))
  · intro st hst
    simp only [generate_query, hst, renderCell, String.data_append,
      List.append_assoc]
    exact hasSub_append _ _ _ (hasSub_append _ _ _ (hasSub_append _ _ _
      (hasSub_append _ _ _ (hasSub_append _ _ _ (hasSub_self_append _ _)))))

/-- Witness for C9: the query of a concrete lead embeds its EIN. -/
theorem generate_query_embedding_witness :
    hasSub
        (toString (Lead.mk (some "A") 11 (some "MA") 6000 "Large (5K+)" none
          Tier.tier1).ein).data
        (generate_query (Lead.mk (some "A") 11 (some "MA") 6000 "Large (5K+)" none
          Tier.tier1)).data = true :=
  (generate_query_deterministic_and_embedding _ _ rfl).2.2.1

/-- Tier label lambda as written in load_data, src/app.py lines 51-54,
on the raw state cell. -/
def load_data_tier_label (x : Option String) : String :=
  match x with
  | some s =>
      if TIER_1_STATES.contains s then "Tier 1"
      else if TIER_2_STATES.contains s then "Tier 2"
      else "Tier 3"
  | none => "Tier 3"

/-- Tier label lambda as re-written inside create_geographic_chart,
src/app.py lines 102-105, on the state codes of the chart. -/
def create_geographic_chart_tier_label (x : Option String) : String :=
  match x with
  | some s =>
      if TIER_1_STATES.contains s then "Tier 1"
      else if TIER_2_STATES.contains s then "Tier 2"
      else "Tier 3"
  | none => "Tier 3"

/-- C10: the tier re-derivation inside the geographic chart is
extensionally equal to the load-time classification: both lambdas give
the same label on every state value, and agree with the classifier. -/
theorem chart_tier_label_extensionally_equal :
    ∀ x : Option String,
      create_geographic_chart_tier_label x = load_data_tier_label x
      ∧ load_data_tier_label x = tierLabel (classify x) := by
  intro x
  constructor
  · cases x <;> rfl
  · cases x with
    | none => rfl
    | some s =>
        simp only [load_data_tier_label, classify]
        by_cases h1 : s ∈ TIER_1_STATES
        · simp [h1, tierLabel]
        · by_cases h2 : s ∈ TIER_2_STATES
          · simp [h1, h2, tierLabel]
          · simp [h1, h2, tierLabel]

